import Mathlib

/-!
Verification development for the continue-witty monitoring core
(context-window monitor, credit monitor, session-duration monitor and the
monitoring coordinator).  The Python sources are shallowly embedded below:
pure functions become Lean functions, the persisted JSON state documents
become explicit structures threaded through each operation, wall-clock
timestamps become rational-number parameters (seconds), and Python floats
become rationals.  Presentation-only strings that interpolate formatted
floats (status messages, titles embedding `"%.1f"`-formatted hours) are not
modelled; every field read back by the logic is.
-/

/-! ## Character and scanning helpers

The Python monitors match fixed regular expressions (`re.findall` /
`re.search`, always with `re.IGNORECASE`).  Each concrete pattern is embedded
as a hand-written scanner over `List Char`; matching is performed on the
lower-cased text, which for these all-lower-case ASCII patterns coincides
with `re.IGNORECASE`.  The patterns only use `\d+`, `\s+`/`\s*`, literal
words, ordered alternation, `s?` and `.*`; every repetition here is followed
by a character disjoint from the repeated class, so a maximal-munch scanner
agrees with the backtracking regex engine.
-/

/-- Whitespace class of Python's `\s` (ASCII part). -/
def isWSChar (c : Char) : Bool :=
  c = ' ' || c = '\t' || c = '\n' || c = '\r' || c = '\x0b' || c = '\x0c'

/-- Maximal-munch `\s*`. -/
def dropWS : List Char → List Char
  | c :: cs => if isWSChar c then dropWS cs else c :: cs
  | [] => []

/-- Maximal-munch `\s+` (at least one whitespace character). -/
def matchWS1 : List Char → Option (List Char)
  | c :: cs => if isWSChar c then some (dropWS cs) else none
  | [] => none

/-- Maximal digit run (possibly empty) and the rest. -/
def takeDigits : List Char → List Char × List Char
  | c :: cs =>
    if c.isDigit then
      let p := takeDigits cs
      (c :: p.1, p.2)
    else ([], c :: cs)
  | [] => ([], [])

/-- Maximal-munch `(\d+)`: a nonempty digit run and the rest. -/
def matchDigits (l : List Char) : Option (List Char × List Char) :=
  let p := takeDigits l
  if p.1.isEmpty then none else some p

/-- Literal word match; returns the rest of the input on success. -/
def matchLit : List Char → List Char → Option (List Char)
  | [], l => some l
  | c :: w, x :: xs => if x = c then matchLit w xs else none
  | _ :: _, [] => none

/-- Ordered alternation of literal words (first alternative that matches
wins, mirroring the regex engine's left-to-right alternation). -/
def firstAlt (ws : List (List Char)) (l : List Char) : Option (List Char) :=
  match ws with
  | [] => none
  | w :: rest =>
    match matchLit w l with
    | some r => some r
    | none => firstAlt rest l

/-- Numeric value of a digit run, as Python's `int` on a digit string. -/
def digitsToNat (l : List Char) : Nat :=
  l.foldl (fun n c => n * 10 + (c.toNat - '0'.toNat)) 0

/-- Python's `str.isdigit` restricted to ASCII: nonempty and all digits. -/
def isDigitStr (l : List Char) : Bool :=
  !l.isEmpty && l.all Char.isDigit

/-! ## Context monitor: `context_indicators` scanners

One scanner per entry of `ContextWindowMonitor.context_indicators`, in
source order.  A scanner applied at a position returns the `re.findall`
item for a match starting there (the single captured group, the pair of
captured groups, or — for the group-less patterns — the whole match, which
for those patterns always starts with a letter) together with the rest of
the input after the match.
-/

/-- One `re.findall` item: one captured group, two captured groups, or the
whole match of a group-less pattern (never a digit string, since the three
group-less indicator patterns all begin with a letter). -/
inductive IndicatorMatch where
  | one (s : List Char)
  | two (a b : List Char)
  | whole
deriving Repr, DecidableEq

/-- Scanner for `(\d+)\s*(?:tokens?|words?)\s*(?:used|remaining|left)`. -/
def indicator1At (l : List Char) : Option (IndicatorMatch × List Char) := do
  let (d, r) ← matchDigits l
  let r := dropWS r
  let r ← firstAlt ["tokens".toList, "token".toList, "words".toList, "word".toList] r
  let r := dropWS r
  let r ← firstAlt ["used".toList, "remaining".toList, "left".toList] r
  pure (IndicatorMatch.one d, r)

/-- Scanner for `context\s*(?:window|size|limit)\s*:\s*(\d+)`. -/
def indicator2At (l : List Char) : Option (IndicatorMatch × List Char) := do
  let r ← matchLit "context".toList l
  let r := dropWS r
  let r ← firstAlt ["window".toList, "size".toList, "limit".toList] r
  let r := dropWS r
  let r ← matchLit ":".toList r
  let r := dropWS r
  let (d, r) ← matchDigits r
  pure (IndicatorMatch.one d, r)

/-- Scanner for `(\d+)\s*(?:/|of)\s*(\d+)\s*(?:tokens?|context)`. -/
def indicator3At (l : List Char) : Option (IndicatorMatch × List Char) := do
  let (d1, r) ← matchDigits l
  let r := dropWS r
  let r ← firstAlt ["/".toList, "of".toList] r
  let r := dropWS r
  let (d2, r) ← matchDigits r
  let r := dropWS r
  let r ← firstAlt ["tokens".toList, "token".toList, "context".toList] r
  pure (IndicatorMatch.two d1 d2, r)

/-- Scanner for `(\d+)%\s*(?:context|usage|capacity|used)`. -/
def indicator4At (l : List Char) : Option (IndicatorMatch × List Char) := do
  let (d, r) ← matchDigits l
  let r ← matchLit "%".toList r
  let r := dropWS r
  let r ← firstAlt ["context".toList, "usage".toList, "capacity".toList, "used".toList] r
  pure (IndicatorMatch.one d, r)

/-- Scanner for `context\s*:\s*(\d+)%`. -/
def indicator5At (l : List Char) : Option (IndicatorMatch × List Char) := do
  let r ← matchLit "context".toList l
  let r := dropWS r
  let r ← matchLit ":".toList r
  let r := dropWS r
  let (d, r) ← matchDigits r
  let r ← matchLit "%".toList r
  pure (IndicatorMatch.one d, r)

/-- Scanner for `compacting|summarizing|truncating` (no capture group). -/
def indicator6At (l : List Char) : Option (IndicatorMatch × List Char) := do
  let r ← firstAlt ["compacting".toList, "summarizing".toList, "truncating".toList] l
  pure (IndicatorMatch.whole, r)

/-- Scanner for `context\s*(?:window\s*)?(?:full|limit|exceeded)` (no capture
group); the optional `window\s*` part is tried greedily first, falling back
to the branch without it, as the regex engine does. -/
def indicator7At (l : List Char) : Option (IndicatorMatch × List Char) := do
  let r ← matchLit "context".toList l
  let r := dropWS r
  let withWindow : Option (List Char) := do
    let r2 ← matchLit "window".toList r
    firstAlt ["full".toList, "limit".toList, "exceeded".toList] (dropWS r2)
  match withWindow with
  | some rest => pure (IndicatorMatch.whole, rest)
  | none => do
    let rest ← firstAlt ["full".toList, "limit".toList, "exceeded".toList] r
    pure (IndicatorMatch.whole, rest)

/-- Scanner for `reducing\s*(?:context|conversation\s*history)` (no capture
group). -/
def indicator8At (l : List Char) : Option (IndicatorMatch × List Char) := do
  let r ← matchLit "reducing".toList l
  let r := dropWS r
  match matchLit "context".toList r with
  | some rest => pure (IndicatorMatch.whole, rest)
  | none => do
    let r2 ← matchLit "conversation".toList r
    let rest ← matchLit "history".toList (dropWS r2)
    pure (IndicatorMatch.whole, rest)

/-- `re.findall` driver: scan left to right, taking non-overlapping matches;
fuelled recursion (every scanner consumes at least one character, so
`length + 1` fuel suffices). -/
def findallAux (p : List Char → Option (IndicatorMatch × List Char)) :
    Nat → List Char → List IndicatorMatch
  | 0, _ => []
  | fuel + 1, l =>
    match p l with
    | some (m, rest) => m :: findallAux p fuel rest
    | none =>
      match l with
      | [] => []
      | _ :: tl => findallAux p fuel tl

/-- All non-overlapping matches of one indicator pattern, left to right. -/
def findall (p : List Char → Option (IndicatorMatch × List Char))
    (l : List Char) : List IndicatorMatch :=
  findallAux p (l.length + 1) l

/-- A Method-1 return value in symbolic form: an explicit `used/total`
ratio or an explicit percentage (numerators only; the division into a
fraction happens in `hitValue`, keeping the scan itself over `Nat`). -/
inductive IndicatorHit where
  | ratio (used total : Nat)
  | percent (p : Nat)
deriving Repr, DecidableEq

/-- The fraction the Method-1 loop returns for a hit:
`min(used / total, 1.0)` for a ratio, `percentage / 100.0` for a
percentage. -/
def hitValue : IndicatorHit → ℚ
  | .ratio used total => min ((used : ℚ) / (total : ℚ)) 1
  | .percent p => (p : ℚ) / 100

/-- The per-match body of the Method-1 loop in `estimate_context_usage`:
a two-group match is read as `used/total` (accepted when `total > 0`), a
one-group digit match as a percentage (accepted when `≤ 100`); anything
else is skipped. -/
def indicatorValue : IndicatorMatch → Option IndicatorHit
  | .two a b =>
    if isDigitStr b then
      let used : Nat := if isDigitStr a then digitsToNat a else 0
      let total : Nat := digitsToNat b
      if 0 < total then some (.ratio used total) else none
    else if isDigitStr a then
      let percentage := digitsToNat a
      if percentage ≤ 100 then some (.percent percentage) else none
    else none
  | .one s =>
    if isDigitStr s then
      let percentage := digitsToNat s
      if percentage ≤ 100 then some (.percent percentage) else none
    else none
  | .whole => none

/-- First match of one pattern whose loop body returns a value. -/
def firstIndicatorHit : List IndicatorMatch → Option IndicatorHit
  | [] => none
  | m :: ms =>
    match indicatorValue m with
    | some q => some q
    | none => firstIndicatorHit ms

/-- The eight `context_indicators` scanners, in source order. -/
def contextIndicatorScanners :
    List (List Char → Option (IndicatorMatch × List Char)) :=
  [indicator1At, indicator2At, indicator3At, indicator4At,
   indicator5At, indicator6At, indicator7At, indicator8At]

/-- Method 1 of `estimate_context_usage`: the first pattern (in order) with
a match whose loop body returns a value determines the result. -/
def scanContextIndicators (text : List Char) : Option IndicatorHit :=
  (contextIndicatorScanners.map fun p => firstIndicatorHit (findall p text)).foldl
    (fun acc r => acc.orElse fun _ => r) none

/-- Lower-cased character list of a string (the `re.IGNORECASE` matching
surface, and `message.lower()` in the credit monitor). -/
def lowerChars (s : String) : List Char :=
  s.toList.map Char.toLower

/-! ## Package factory interface (external collaborator)

`EnhancedPackageGenerator` is the external Package Factory; the monitors
only depend on its `create_enhanced_package` entry point.  It is embedded as
an abstract function from requests to results, with `Option` expressing
whether the collaborator could be constructed (`None` when the dynamic data
load of the sibling module failed). -/

/-- Backup tiers (`PackageType` enum). -/
inductive PackageType where
  | light
  | full
  | complex
deriving Repr, DecidableEq

/-- Arguments of one `create_enhanced_package` call. -/
structure PackageRequest where
  package_type : PackageType
  trigger_reason : String
  auto_created : Bool
  conversation_exchanges : Option Nat
deriving Repr, DecidableEq

/-- The fields of a factory result that the monitors read back. -/
structure PackageResult where
  success : Bool
  snapshot_id : String
deriving Repr, DecidableEq

/-- Abstract package factory behaviour. -/
def Generator : Type := PackageRequest → PackageResult

/-- Result value of a trigger-handling operation: the error record produced
when the factory is unavailable, a skip record, or a factory result
(together with the `backup_type` tag added on success and the generated
`backup_title` where one is built without float formatting). -/
inductive TriggerOutcome where
  | err (msg : String)
  | skipped (reason : String)
  | made (r : PackageResult) (backup_type : Option String) (backup_title : Option String)
deriving Repr, DecidableEq

/-- `trigger_result.get("success", False)`: only factory results carry a
`success` key. -/
def outcomeSuccess : TriggerOutcome → Bool
  | .made r _ _ => r.success
  | _ => false

/-! ## Context window monitor (`context-window-monitor.py`) -/

/-- Persisted context-monitor state (`context-monitor-state.json`); the
write-only `last_check` and `base_context_timestamp` bookkeeping timestamps
are omitted, every field read by the logic is present. -/
structure ContextState where
  warning_triggered : Bool
  base_context_created : Bool
  base_context_snapshot : Option String
  critical_triggered : Bool
  estimated_context_usage : ℚ
  conversation_exchanges_since_base : Nat
deriving Repr, DecidableEq

/-- Default context-monitor state (`_load_state` defaults). -/
def defaultContextState : ContextState :=
  { warning_triggered := false
    base_context_created := false
    base_context_snapshot := none
    critical_triggered := false
    estimated_context_usage := 0
    conversation_exchanges_since_base := 0 }

/-- `self.max_context_estimate` (tokens). -/
def max_context_estimate : ℚ := 200000

/-- `self.warning_threshold` (hard-coded `0.90` in `__init__`). -/
def warning_threshold : ℚ := 9 / 10

/-- `self.critical_threshold` (hard-coded `0.95` in `__init__`). -/
def critical_threshold : ℚ := 19 / 20

/-- `estimate_context_usage`: an explicit indicator in the text is returned
directly (Method 1); otherwise the result is the larger of the length
heuristic `char_count / 4 / max_context_estimate` and the exchange-count
heuristic `estimated_context_usage + exchanges × 0.015`, clamped to 1. -/
def estimate_context_usage (st : ContextState) (conversation_text : String) : ℚ :=
  match scanContextIndicators (lowerChars conversation_text) with
  | some hit => hitValue hit
  | none =>
    let char_count : ℚ := (conversation_text.length : ℚ)
    let estimated_tokens := char_count / 4
    let estimated_usage := estimated_tokens / max_context_estimate
    let exchange_increment := (st.conversation_exchanges_since_base : ℚ) * (15 / 1000)
    let final_estimate := max estimated_usage (st.estimated_context_usage + exchange_increment)
    min final_estimate 1

/-- Fields of the `check_context_thresholds` result dict that are read back
(the `%`-formatted message strings are presentation only). -/
structure ContextCheckResult where
  current_usage : ℚ
  warning_threshold_crossed : Bool
  critical_threshold_crossed : Bool
  action_required : Option String
  backup_type : Option String
deriving Repr, DecidableEq

/-- `check_context_thresholds`: estimates usage, stores it, then checks the
critical threshold first and the warning threshold only in the `elif`
branch; each branch is guarded by its one-shot flag and sets it. -/
def check_context_thresholds (st : ContextState) (conversation_text : String) :
    ContextCheckResult × ContextState :=
  let current_usage := estimate_context_usage st conversation_text
  let st := { st with estimated_context_usage := current_usage }
  if current_usage ≥ critical_threshold ∧ st.critical_triggered = false then
    ({ current_usage
       warning_threshold_crossed := false
       critical_threshold_crossed := true
       action_required := some "critical_backup"
       backup_type := some (if st.base_context_created then "delta_session" else "full_backup") },
     { st with critical_triggered := true })
  else if current_usage ≥ warning_threshold ∧ st.warning_triggered = false then
    ({ current_usage
       warning_threshold_crossed := true
       critical_threshold_crossed := false
       action_required := some "warning_backup"
       backup_type := some "base_context" },
     { st with warning_triggered := true })
  else
    ({ current_usage
       warning_threshold_crossed := false
       critical_threshold_crossed := false
       action_required := none
       backup_type := none }, st)

/-- `increment_exchange_count`. -/
def increment_exchange_count (st : ContextState) : ContextState :=
  { st with conversation_exchanges_since_base := st.conversation_exchanges_since_base + 1 }

/-- `reset_monitoring`: restore the default state. -/
def reset_monitoring (_st : ContextState) : ContextState :=
  defaultContextState

/-- `handle_warning_trigger`: with no factory, the error record; otherwise
the (single, non-re-prompting) y/n decision drives `_create_base_context`,
whose success sets the baseline fields and zeroes the exchange counter. -/
def handle_warning_trigger (gen : Option Generator) (st : ContextState)
    (response : String) : TriggerOutcome × ContextState :=
  match gen with
  | none => (.err "Enhanced package generator not available", st)
  | some g =>
    let choice := response.toLower
    if choice = "y" ∨ choice = "yes" then
      let r := g { package_type := .full, trigger_reason := "context-warning-10pct",
                   auto_created := false, conversation_exchanges := none }
      if r.success then
        (.made r (some "base_context") none,
         { st with base_context_created := true
                   base_context_snapshot := some r.snapshot_id
                   conversation_exchanges_since_base := 0 })
      else (.made r none none, st)
    else if choice = "n" ∨ choice = "no" then
      (.skipped "User declined base context backup", st)
    else
      (.skipped "Invalid input, defaulted to no", st)

/-- `handle_critical_trigger`: with no factory, the error record; with a
baseline present, a delta package (tier COMPLEX, exchange count
`max(exchanges_since_base, 3)`); otherwise a full critical package. -/
def handle_critical_trigger (gen : Option Generator) (st : ContextState) :
    TriggerOutcome × ContextState :=
  match gen with
  | none => (.err "Enhanced package generator not available", st)
  | some g =>
    if st.base_context_created then
      let delta_exchanges := max st.conversation_exchanges_since_base 3
      let r := g { package_type := .complex, trigger_reason := "context-critical-5pct-delta",
                   auto_created := true, conversation_exchanges := some delta_exchanges }
      ((if r.success then .made r (some "delta_session") none else .made r none none), st)
    else
      let r := g { package_type := .complex, trigger_reason := "context-critical-5pct-full",
                   auto_created := true, conversation_exchanges := none }
      ((if r.success then .made r (some "full_critical") none else .made r none none), st)

/-- `monitor_conversation`: when context monitoring is enabled, increment
the exchange count, check thresholds, and dispatch to the critical or
warning handler; `None` when nothing crossed. -/
def monitor_conversation (context_monitoring : Bool) (gen : Option Generator)
    (st : ContextState) (conversation_text : String) (warningResponse : String) :
    Option TriggerOutcome × ContextState :=
  if context_monitoring = false then (none, st)
  else
    let st := increment_exchange_count st
    let p := check_context_thresholds st conversation_text
    if p.1.critical_threshold_crossed then
      let q := handle_critical_trigger gen p.2
      (some q.1, q.2)
    else if p.1.warning_threshold_crossed then
      let q := handle_warning_trigger gen p.2 warningResponse
      (some q.1, q.2)
    else (none, p.2)

/-! ## Credit monitor (`credit-monitor.py`)

The credit monitor is stateless: a fixed list of warning patterns is
searched (`re.search`, `re.IGNORECASE`) in the lower-cased message, and a
detection carries the matched pattern source strings, a confidence ratio, a
priority-cascade warning type and an optionally extracted resume time. -/

/-- Scanner for `credits?\s+running\s+low`
(the optional `s` is consumed greedily; `\s` never matches `s`, so this
agrees with backtracking). -/
def credit1At (l : List Char) : Option (List Char) := do
  let r ← matchLit "credit".toList l
  let r := match r with
    | 's' :: rest => rest
    | _ => r
  let r ← matchWS1 r
  let r ← matchLit "running".toList r
  let r ← matchWS1 r
  matchLit "low".toList r

/-- Scanner for `usage\s+limit\s+(reached|approaching)`. -/
def credit2At (l : List Char) : Option (List Char) := do
  let r ← matchLit "usage".toList l
  let r ← matchWS1 r
  let r ← matchLit "limit".toList r
  let r ← matchWS1 r
  firstAlt ["reached".toList, "approaching".toList] r

/-- Scanner for `approaching\s+usage\s+limit`. -/
def credit3At (l : List Char) : Option (List Char) := do
  let r ← matchLit "approaching".toList l
  let r ← matchWS1 r
  let r ← matchLit "usage".toList r
  let r ← matchWS1 r
  matchLit "limit".toList r

/-- Tail `\d+[ap]m` shared by the resume/reset time patterns. -/
def matchClockTime (l : List Char) : Option (List Char) := do
  let (_, r) ← matchDigits l
  match r with
  | x :: 'm' :: rest => if x = 'a' ∨ x = 'p' then some rest else none
  | _ => none

/-- Scanner for `resume\s+at\s+\d+[ap]m`. -/
def credit4At (l : List Char) : Option (List Char) := do
  let r ← matchLit "resume".toList l
  let r ← matchWS1 r
  let r ← matchLit "at".toList r
  let r ← matchWS1 r
  matchClockTime r

/-- Scanner for `resets?\s+at\s+\d+[ap]m`. -/
def credit5At (l : List Char) : Option (List Char) := do
  let r ← matchLit "reset".toList l
  let r := match r with
    | 's' :: rest => rest
    | _ => r
  let r ← matchWS1 r
  let r ← matchLit "at".toList r
  let r ← matchWS1 r
  matchClockTime r

/-- Gap search for `.*q`: try `q` at each position of the rest of the line
(`.` does not cross a newline without `re.DOTALL`); fuelled like `findall`. -/
def searchNoNL (q : List Char → Option (List Char)) : Nat → List Char → Option (List Char)
  | 0, _ => none
  | fuel + 1, l =>
    match q l with
    | some r => some r
    | none =>
      match l with
      | [] => none
      | c :: tl => if c = '\n' then none else searchNoNL q fuel tl

/-- Scanner for `upgrade\s+.*more\s+credit`. -/
def credit6At (l : List Char) : Option (List Char) := do
  let r ← matchLit "upgrade".toList l
  let r ← matchWS1 r
  searchNoNL
    (fun s => do
      let s ← matchLit "more".toList s
      let s ← matchWS1 s
      matchLit "credit".toList s)
    (r.length + 1) r

/-- Scanner for `session\s+will\s+pause`. -/
def credit7At (l : List Char) : Option (List Char) := do
  let r ← matchLit "session".toList l
  let r ← matchWS1 r
  let r ← matchLit "will".toList r
  let r ← matchWS1 r
  matchLit "pause".toList r

/-- Scanner for `daily\s+limit\s+reached`. -/
def credit8At (l : List Char) : Option (List Char) := do
  let r ← matchLit "daily".toList l
  let r ← matchWS1 r
  let r ← matchLit "limit".toList r
  let r ← matchWS1 r
  matchLit "reached".toList r

/-- Scanner for `credits?\s+.*refresh`. -/
def credit9At (l : List Char) : Option (List Char) := do
  let r ← matchLit "credit".toList l
  let r := match r with
    | 's' :: rest => rest
    | _ => r
  let r ← matchWS1 r
  searchNoNL (fun s => matchLit "refresh".toList s) (r.length + 1) r

/-- `re.search` driver: does the scanner match at any position? -/
def searchAnywhereAux (p : List Char → Option (List Char)) : Nat → List Char → Bool
  | 0, _ => false
  | fuel + 1, l =>
    match p l with
    | some _ => true
    | none =>
      match l with
      | [] => false
      | _ :: tl => searchAnywhereAux p fuel tl

/-- Whether a pattern scanner matches somewhere in the text. -/
def searchAnywhere (p : List Char → Option (List Char)) (l : List Char) : Bool :=
  searchAnywhereAux p (l.length + 1) l

/-- `self.credit_patterns`: pattern source strings paired with their
scanners, in source order. -/
def credit_patterns : List (String × (List Char → Option (List Char))) :=
  [("credits?\\s+running\\s+low", credit1At),
   ("usage\\s+limit\\s+(reached|approaching)", credit2At),
   ("approaching\\s+usage\\s+limit", credit3At),
   ("resume\\s+at\\s+\\d+[ap]m", credit4At),
   ("resets?\\s+at\\s+\\d+[ap]m", credit5At),
   ("upgrade\\s+.*more\\s+credit", credit6At),
   ("session\\s+will\\s+pause", credit7At),
   ("daily\\s+limit\\s+reached", credit8At),
   ("credits?\\s+.*refresh", credit9At)]

/-- Python's substring test `needle in haystack`. -/
def hasSubstr (needle : List Char) : List Char → Bool
  | [] => needle.isEmpty
  | c :: tl => needle.isPrefixOf (c :: tl) || hasSubstr needle tl

/-- `_classify_warning_type` (argument is the lower-cased message; Python's
`in` is substring containment): fixed priority cascade. -/
def classify_warning_type (message : List Char) : String :=
  if hasSubstr "daily limit".toList message ∨ hasSubstr "24 hour".toList message then
    "daily_limit"
  else if hasSubstr "upgrade".toList message then
    "upgrade_suggestion"
  else if hasSubstr "running low".toList message then
    "low_credits"
  else if hasSubstr "pause".toList message then
    "session_pause"
  else
    "general_limit"

/-- Case-insensitive literal match against a lower-case pattern word,
preserving the original input for later capture. -/
def matchLitIC : List Char → List Char → Option (List Char)
  | [], l => some l
  | c :: w, x :: xs => if x.toLower = c then matchLitIC w xs else none
  | _ :: _, [] => none

/-- Capture of `(\d+[ap]m)` with the original character case. -/
def captureClockTime (l : List Char) : Option (List Char) := do
  let (d, r) ← matchDigits l
  match r with
  | x :: y :: _ =>
    if (x.toLower = 'a' ∨ x.toLower = 'p') ∧ y.toLower = 'm' then
      some (d ++ [x, y])
    else none
  | _ => none

/-- One resume-time pattern `kw\s+at\s+(\d+[ap]m)` applied at a position. -/
def resumeTimeAt (kw : List Char) (l : List Char) : Option (List Char) := do
  let r ← matchLitIC kw l
  let r ← matchWS1 r
  let r ← matchLitIC "at".toList r
  let r ← matchWS1 r
  captureClockTime r

/-- Leftmost capture of a capturing scanner anywhere in the text. -/
def searchCaptureAux (p : List Char → Option (List Char)) : Nat → List Char → Option (List Char)
  | 0, _ => none
  | fuel + 1, l =>
    match p l with
    | some cap => some cap
    | none =>
      match l with
      | [] => none
      | _ :: tl => searchCaptureAux p fuel tl

/-- `_extract_resume_time`: ordered secondary pattern set
(`resume at`, `available at`, `refresh at`); first pattern with a match
wins, returning its captured time group. -/
def extract_resume_time (message : String) : Option String :=
  let l := message.toList
  let kws := ["resume".toList, "available".toList, "refresh".toList]
  (kws.map fun kw => searchCaptureAux (resumeTimeAt kw) (l.length + 1) l).foldl
    (fun acc r => acc.orElse fun _ => (r.map fun cap => String.mk cap)) none

/-- The fields of a `detect_credit_warning` result. -/
structure CreditWarningInfo where
  credit_warning_detected : Bool
  patterns_matched : List String
  resume_time : Option String
  warning_type : String
  confidence : ℚ
deriving Repr, DecidableEq

/-- `detect_credit_warning`: collect the matching patterns on the
lower-cased message; on any match, fill in resume time, cascade warning
type and `|matched| / |patterns|` confidence. -/
def detect_credit_warning (message : String) : CreditWarningInfo :=
  let message_lower := lowerChars message
  let detected := (credit_patterns.filter fun pr => searchAnywhere pr.2 message_lower).map
    fun pr => pr.1
  if detected.isEmpty then
    { credit_warning_detected := false
      patterns_matched := []
      resume_time := none
      warning_type := ""
      confidence := 0 }
  else
    { credit_warning_detected := true
      patterns_matched := detected
      resume_time := extract_resume_time message
      warning_type := classify_warning_type message_lower
      confidence := (detected.length : ℚ) / (credit_patterns.length : ℚ) }

/-- Outcome of one credit-monitor call: either it resolved to a result
record, or the interactive prompt loop consumed every supplied response
without a valid answer (in the source this blocks on `input()` forever). -/
inductive CreditCall where
  | blocked
  | outcome (o : TriggerOutcome)
deriving Repr, DecidableEq

/-- `_generate_threshold_title`. -/
def generate_threshold_title (resume_time : Option String) : String :=
  match resume_time with
  | some t => "Threshold backup (resume " ++ t ++ ")"
  | none => "Threshold backup"

/-- `_execute_threshold_backup`: convert the chosen tier, build the
threshold trigger reason and title, and call the factory. -/
def execute_threshold_backup (g : Generator) (package_type : PackageType)
    (info : CreditWarningInfo) : TriggerOutcome :=
  let title := generate_threshold_title info.resume_time
  let trigger_reason := "threshold-" ++ info.warning_type
  let r := g { package_type, trigger_reason, auto_created := true,
               conversation_exchanges := none }
  .made r none (some title)

/-- `_show_backup_options`: the ternary 1/2/3 choice, re-prompting on
invalid input. -/
def show_backup_options (g : Generator) (info : CreditWarningInfo) :
    List String → CreditCall
  | [] => .blocked
  | resp :: rest =>
    let choice := resp.trim
    if choice = "1" then .outcome (execute_threshold_backup g .light info)
    else if choice = "2" then .outcome (execute_threshold_backup g .full info)
    else if choice = "3" then .outcome (execute_threshold_backup g .complex info)
    else show_backup_options g info rest

/-- The y/n loop of `trigger_backup_prompt`, re-prompting on invalid
input. -/
def backup_prompt_loop (g : Generator) (info : CreditWarningInfo) :
    List String → CreditCall
  | [] => .blocked
  | resp :: rest =>
    let choice := resp.trim.toLower
    if choice = "y" ∨ choice = "yes" then show_backup_options g info rest
    else if choice = "n" ∨ choice = "no" then
      .outcome (.skipped "User chose to skip backup")
    else backup_prompt_loop g info rest

/-- `trigger_backup_prompt`: skip when `credit_auto_trigger` is disabled,
report the factory-unavailable error when the factory is absent, otherwise
run the interactive binary-then-ternary choice. -/
def trigger_backup_prompt (credit_auto_trigger : Bool) (gen : Option Generator)
    (info : CreditWarningInfo) (responses : List String) : CreditCall :=
  if credit_auto_trigger = false then
    .outcome (.skipped "Credit auto-trigger disabled")
  else
    match gen with
    | none => .outcome (.err "Enhanced package generator not available")
    | some g => backup_prompt_loop g info responses

/-- `monitor_session`: `None` when no credit warning is detected, otherwise
the backup-prompt call. -/
def monitor_session (credit_auto_trigger : Bool) (gen : Option Generator)
    (message : String) (responses : List String) : Option CreditCall :=
  let info := detect_credit_warning message
  if info.credit_warning_detected then
    some (trigger_backup_prompt credit_auto_trigger gen info responses)
  else none

/-! ## Session duration monitor (`session-duration-monitor.py`)

Wall-clock instants are rationals in seconds; durations are converted to
hours exactly as `total_seconds() / 3600`. -/

/-- Configuration keys read by the monitors and the coordinator, with the
hard-coded defaults of `_load_config`. -/
structure Config where
  context_monitoring : Bool := true
  credit_auto_trigger : Bool := true
  session_monitoring : Bool := true
  credit_monitoring : Bool := true
  unified_monitoring : Bool := true
  auto_code_yellow : Bool := true
  session_limit_hours : ℚ := 5
  code_yellow_threshold_hours : ℚ := 9 / 2
  code_orange_threshold_hours : ℚ := 19 / 4
deriving Repr, DecidableEq

/-- The default configuration (no user config file). -/
def defaultConfig : Config := {}

/-- Persisted session state (`session-state.json`). -/
structure SessionState where
  session_start : Option ℚ
  last_activity : Option ℚ
  code_yellow_triggered : Bool
  code_orange_triggered : Bool
  session_id : Option String
  total_exchanges : Nat
  emergency_backups_created : Nat
deriving Repr, DecidableEq

/-- Default session state (`_load_session_state` defaults). -/
def defaultSessionState : SessionState :=
  { session_start := none
    last_activity := none
    code_yellow_triggered := false
    code_orange_triggered := false
    session_id := none
    total_exchanges := 0
    emergency_backups_created := 0 }

/-- `start_session`: replace the whole session state with a fresh one. -/
def start_session (_st : SessionState) (now : ℚ) (session_id : String) : SessionState :=
  { session_start := some now
    last_activity := some now
    code_yellow_triggered := false
    code_orange_triggered := false
    session_id := some session_id
    total_exchanges := 0
    emergency_backups_created := 0 }

/-- `get_session_duration` in hours; `0.0` when no session was started. -/
def get_session_duration (st : SessionState) (now : ℚ) : ℚ :=
  match st.session_start with
  | none => 0
  | some start_time => (now - start_time) / 3600

/-- `get_time_remaining` in hours. -/
def get_time_remaining (cfg : Config) (st : SessionState) (now : ℚ) : ℚ :=
  max 0 (cfg.session_limit_hours - get_session_duration st now)

/-- `update_activity` of the session monitor. -/
def session_update_activity (st : SessionState) (now : ℚ) : SessionState :=
  { st with last_activity := some now, total_exchanges := st.total_exchanges + 1 }

/-- Fields of the `check_session_thresholds` result dict that are read
back. -/
structure SessionCheckResult where
  session_duration_hours : ℚ
  time_remaining_hours : ℚ
  code_orange_crossed : Bool
  code_yellow_crossed : Bool
  session_limit_exceeded : Bool
  action_required : Option String
deriving Repr, DecidableEq

/-- `check_session_thresholds`: the limit branch is checked first and is
guarded by no flag; the orange and yellow branches are one-shot `elif`
branches guarded by their persisted flags. -/
def check_session_thresholds (cfg : Config) (st : SessionState) (now : ℚ) :
    SessionCheckResult × SessionState :=
  let duration := get_session_duration st now
  let time_remaining := get_time_remaining cfg st now
  if duration ≥ cfg.session_limit_hours then
    ({ session_duration_hours := duration
       time_remaining_hours := time_remaining
       code_orange_crossed := false
       code_yellow_crossed := false
       session_limit_exceeded := true
       action_required := some "emergency_backup" }, st)
  else if duration ≥ cfg.code_orange_threshold_hours ∧ st.code_orange_triggered = false then
    ({ session_duration_hours := duration
       time_remaining_hours := time_remaining
       code_orange_crossed := true
       code_yellow_crossed := false
       session_limit_exceeded := false
       action_required := some "code_orange" },
     { st with code_orange_triggered := true })
  else if duration ≥ cfg.code_yellow_threshold_hours ∧ st.code_yellow_triggered = false then
    ({ session_duration_hours := duration
       time_remaining_hours := time_remaining
       code_orange_crossed := false
       code_yellow_crossed := true
       session_limit_exceeded := false
       action_required := some "code_yellow" },
     { st with code_yellow_triggered := true })
  else
    ({ session_duration_hours := duration
       time_remaining_hours := time_remaining
       code_orange_crossed := false
       code_yellow_crossed := false
       session_limit_exceeded := false
       action_required := none }, st)

/-- `trigger_code_yellow`: factory-unavailable error record, or a COMPLEX
emergency package request with `conversation_exchanges = 10`; a successful
creation increments `emergency_backups_created` (the `"%.1f"`-formatted
emergency title and supplementary markdown artifact are presentation
only). -/
def trigger_code_yellow (gen : Option Generator) (st : SessionState) :
    TriggerOutcome × SessionState :=
  match gen with
  | none => (.err "Enhanced package generator not available", st)
  | some g =>
    let r := g { package_type := .complex, trigger_reason := "code-yellow-session-limit",
                 auto_created := true, conversation_exchanges := some 10 }
    if r.success then
      (.made r none none,
       { st with emergency_backups_created := st.emergency_backups_created + 1 })
    else (.made r none none, st)

/-- `reset_session`: restore the default state (the poller stop that
precedes it does not touch the persisted record). -/
def reset_session (_st : SessionState) : SessionState :=
  defaultSessionState

/-! ## Monitoring coordinator (`monitoring-coordinator.py`) -/

/-- One `triggers_history` entry built by `_log_trigger`. -/
structure TriggerEvent where
  timestamp : ℚ
  trigger_type : String
  result : TriggerOutcome
  success : Bool
deriving Repr, DecidableEq

/-- Persisted coordinator state (`coordinator-state.json`). -/
structure CoordinatorState where
  coordinator_started : Option ℚ
  session_id : Option String
  total_triggers_fired : Nat
  triggers_history : List TriggerEvent
  last_coordination_check : Option ℚ
deriving Repr, DecidableEq

/-- Default coordinator state (`_load_coordinator_state` defaults). -/
def defaultCoordinatorState : CoordinatorState :=
  { coordinator_started := none
    session_id := none
    total_triggers_fired := 0
    triggers_history := []
    last_coordination_check := none }

/-- The log entry `_log_trigger` builds from its arguments. -/
def mkTriggerEvent (now : ℚ) (trigger_type : String)
    (trigger_result : TriggerOutcome) : TriggerEvent :=
  { timestamp := now
    trigger_type := trigger_type
    result := trigger_result
    success := outcomeSuccess trigger_result }

/-- `_log_trigger`: append the event, truncate the history to its last 10
entries when it exceeds 10, and increment `total_triggers_fired`. -/
def log_trigger (cs : CoordinatorState) (now : ℚ) (trigger_type : String)
    (trigger_result : TriggerOutcome) : CoordinatorState :=
  let trigger_event : TriggerEvent := mkTriggerEvent now trigger_type trigger_result
  let history := cs.triggers_history ++ [trigger_event]
  let history := if history.length > 10 then history.drop (history.length - 10) else history
  { cs with total_triggers_fired := cs.total_triggers_fired + 1
            triggers_history := history }

/-- The three monitor-owned records plus the coordinator's own record. -/
structure Monitors where
  session : SessionState
  ctx : ContextState
  coord : CoordinatorState
deriving Repr, DecidableEq

/-- Monitors and coordinator at their first-use defaults. -/
def defaultMonitors : Monitors :=
  { session := defaultSessionState
    ctx := defaultContextState
    coord := defaultCoordinatorState }

/-- Result of one coordinator `update_activity` call: a trigger descriptor,
no trigger, or blocked forever inside the credit monitor's interactive
prompt. -/
inductive ActivityResult where
  | blocked
  | noTrigger
  | triggered (o : TriggerOutcome)
deriving Repr, DecidableEq

/-- Coordinator `update_activity`: always bump the session monitor's
activity record; then, when a signal message is present, run the credit
monitor and return its result immediately on a trigger (logging it); only
otherwise, when conversation text is present, run the context monitor
(logging a trigger if it fires). -/
def update_activity (cfg : Config) (gen : Option Generator) (m : Monitors)
    (now : ℚ) (conversation_text claude_message : String)
    (creditResponses : List String) (warningResponse : String) :
    ActivityResult × Monitors :=
  let session := session_update_activity m.session now
  let afterCredit : Option (ActivityResult × Monitors) :=
    if claude_message ≠ "" then
      match monitor_session cfg.credit_auto_trigger gen claude_message creditResponses with
      | some CreditCall.blocked => some (.blocked, { m with session })
      | some (CreditCall.outcome o) =>
        some (.triggered o,
              { session, ctx := m.ctx, coord := log_trigger m.coord now "credit_warning" o })
      | none => none
    else none
  match afterCredit with
  | some out => out
  | none =>
    if conversation_text ≠ "" then
      let p := monitor_conversation cfg.context_monitoring gen m.ctx conversation_text
        warningResponse
      match p.1 with
      | some o =>
        (.triggered o,
         { session, ctx := p.2, coord := log_trigger m.coord now "context_window" o })
      | none => (.noTrigger, { session, ctx := p.2, coord := m.coord })
    else (.noTrigger, { m with session })

/-- `start_unified_monitoring`: start the session monitor (when enabled)
and re-initialize the coordinator record for the new session — including
`total_triggers_fired := 0` and an empty trigger history
(`last_coordination_check` is the one key the update leaves in place). -/
def start_unified_monitoring (cfg : Config) (m : Monitors) (now : ℚ)
    (session_id : String) : Monitors :=
  let session :=
    if cfg.session_monitoring then start_session m.session now session_id else m.session
  { session
    ctx := m.ctx
    coord := { m.coord with
                 coordinator_started := some now
                 session_id := some session_id
                 total_triggers_fired := 0
                 triggers_history := [] } }

/-- `stop_unified_monitoring`: stops the background pollers only — no
persisted record changes. -/
def stop_unified_monitoring (m : Monitors) : Monitors := m

/-- One iteration of the coordinator's background `_coordination_loop`
body: evaluate the duration state machine, auto-trigger Code Yellow on a
yellow crossing and log it, and stamp `last_coordination_check`. -/
def coordination_loop_iter (cfg : Config) (gen : Option Generator) (m : Monitors)
    (now : ℚ) : Monitors :=
  let p := check_session_thresholds cfg m.session now
  let afterTrigger : SessionState × CoordinatorState :=
    if p.1.code_yellow_crossed then
      let q := trigger_code_yellow gen p.2
      (q.2, log_trigger m.coord now "code_yellow" q.1)
    else (p.2, m.coord)
  { session := afterTrigger.1
    ctx := m.ctx
    coord := { afterTrigger.2 with last_coordination_check := some now } }

/-- `reset_all_monitoring`: stop the pollers, then reset the session and
context monitors and the coordinator record to their defaults. -/
def reset_all_monitoring (m : Monitors) : Monitors :=
  let m := stop_unified_monitoring m
  { session := reset_session m.session
    ctx := reset_monitoring m.ctx
    coord := defaultCoordinatorState }

/-- Iterated `_log_trigger` over a sequence of trigger events, given as
(timestamp, type, result) triples. -/
def logTriggerFold (cs : CoordinatorState)
    (xs : List (ℚ × String × TriggerOutcome)) : CoordinatorState :=
  xs.foldl (fun c p => log_trigger c p.1 p.2.1 p.2.2) cs

/-- The last (at most) 10 entries of a list — the ring-buffer truncation of
`_log_trigger` expressed as one drop. -/
def takeLast10 {α : Type} (l : List α) : List α :=
  l.drop (l.length - 10)

/-! ## Helper lemmas for the bounded trigger history -/

theorem log_trigger_history (cs : CoordinatorState) (now : ℚ) (t : String)
    (r : TriggerOutcome) :
    (log_trigger cs now t r).triggers_history =
      takeLast10 (cs.triggers_history ++ [mkTriggerEvent now t r]) := by
  simp only [log_trigger, takeLast10]
  split_ifs with h
  · rfl
  · rw [Nat.sub_eq_zero_of_le (by omega), List.drop_zero]

theorem takeLast10_length_le {α : Type} (l : List α) : (takeLast10 l).length ≤ 10 := by
  simp only [takeLast10, List.length_drop]
  omega

theorem takeLast10_append_left {α : Type} (a b : List α) :
    takeLast10 (takeLast10 a ++ b) = takeLast10 (a ++ b) := by
  simp only [takeLast10, List.length_append, List.length_drop,
    List.drop_append_eq_append_drop, List.drop_drop]
  congr 1
  · congr 1
    omega
  · congr 1
    omega

theorem logTriggerFold_history (xs : List (ℚ × String × TriggerOutcome)) :
    ∀ cs : CoordinatorState, cs.triggers_history.length ≤ 10 →
      (logTriggerFold cs xs).triggers_history =
        takeLast10 (cs.triggers_history ++ xs.map fun p => mkTriggerEvent p.1 p.2.1 p.2.2) := by
  induction xs with
  | nil =>
    intro cs h
    simp only [logTriggerFold, List.foldl_nil, List.map_nil, List.append_nil, takeLast10]
    rw [Nat.sub_eq_zero_of_le h, List.drop_zero]
  | cons x xs ih =>
    intro cs h
    have hlen : (log_trigger cs x.1 x.2.1 x.2.2).triggers_history.length ≤ 10 := by
      rw [log_trigger_history]
      exact takeLast10_length_le _
    simp only [logTriggerFold, List.foldl_cons, List.map_cons]
    have := ih (log_trigger cs x.1 x.2.1 x.2.2) hlen
    simp only [logTriggerFold] at this
    rw [this, log_trigger_history, takeLast10_append_left, List.append_assoc,
      List.singleton_append]

theorem logTriggerFold_history_length_le (xs : List (ℚ × String × TriggerOutcome))
    (cs : CoordinatorState) (h : cs.triggers_history.length ≤ 10) :
    (logTriggerFold cs xs).triggers_history.length ≤ 10 := by
  rw [logTriggerFold_history xs cs h]
  exact takeLast10_length_le _


/-! ## Claims -/

/-- Claim C1, counterexample: with a persisted baseline estimate of 0.5 and
10 exchanges since base (running floor 0.65), the text `"5% context used"`
carries an explicit percentage indicator, and `estimate_context_usage`
returns it directly (1/20) — strictly below the exchange-count running
floor, so the estimate is not the maximum of the heuristics and is lower
than the floor for such texts. -/
theorem estimate_below_floor_counterexample :
    estimate_context_usage
        { warning_triggered := false
          base_context_created := false
          base_context_snapshot := none
          critical_triggered := false
          estimated_context_usage := 1 / 2
          conversation_exchanges_since_base := 10 } "5% context used" <
      1 / 2 + (10 : ℚ) * (15 / 1000) := by
  have h : scanContextIndicators (lowerChars "5% context used") =
      some (.percent 5) := by decide
  simp only [estimate_context_usage, h, hitValue]
  norm_num

/-- Claim C1, amended: when the conversation text contains no explicit
context indicator (no used/total ratio and no percentage mention that the
Method-1 scan accepts), `estimate_context_usage` is the maximum of the
length heuristic and the exchange-count running floor
`estimated_context_usage + exchanges × 0.015` clamped to 1, and is in
particular never below the floor clamped to 1; a text with an accepted
explicit indicator instead determines the result directly, ignoring the
other heuristics. -/
theorem estimate_ge_exchange_floor (st : ContextState) (text : String)
    (h : scanContextIndicators (lowerChars text) = none) :
    min (st.estimated_context_usage +
          (st.conversation_exchanges_since_base : ℚ) * (15 / 1000)) 1 ≤
      estimate_context_usage st text := by
  simp only [estimate_context_usage, h]
  exact min_le_min (le_max_right _ _) le_rfl

/-- Witness for `estimate_ge_exchange_floor` at the indicator-free text
`"hello"` and a state with baseline 0.5 and 10 exchanges since base. -/
theorem estimate_ge_exchange_floor_witness :
    scanContextIndicators (lowerChars "hello") = none ∧
    min ((1 / 2 : ℚ) + (10 : ℚ) * (15 / 1000)) 1 ≤
      estimate_context_usage
        { warning_triggered := false, base_context_created := false,
          base_context_snapshot := none, critical_triggered := false,
          estimated_context_usage := 1 / 2,
          conversation_exchanges_since_base := 10 } "hello" := by
  refine ⟨by decide, ?_⟩
  have h := estimate_ge_exchange_floor
    { warning_triggered := false, base_context_created := false,
      base_context_snapshot := none, critical_triggered := false,
      estimated_context_usage := 1 / 2,
      conversation_exchanges_since_base := 10 } "hello" (by decide)
  simpa using h

/-- Claim C3, counterexample: classifying
`"Daily usage limit reached. Consider upgrading for more credits."` does
not yield `warning_type = "daily_limit"`. -/
theorem classify_daily_message_counterexample :
    (detect_credit_warning
        "Daily usage limit reached. Consider upgrading for more credits.").warning_type ≠
      "daily_limit" := by decide

/-- Claim C3, amended: the message is detected (solely via the
`usage limit (reached|approaching)` pattern) but classified as
`"general_limit"`: the `daily_limit` cascade branch requires the contiguous
substring `"daily limit"` (or `"24 hour"`), which `"daily usage limit"`
does not contain, and the `upgrade_suggestion` branch requires the
substring `"upgrade"`, which `"upgrading"` (`upgrad` + `ing`) does not
contain; the later branches do not match either, so the cascade falls
through to its default. -/
theorem classify_daily_message :
    (detect_credit_warning
        "Daily usage limit reached. Consider upgrading for more credits.").credit_warning_detected =
      true ∧
    (detect_credit_warning
        "Daily usage limit reached. Consider upgrading for more credits.").patterns_matched =
      ["usage\\s+limit\\s+(reached|approaching)"] ∧
    (detect_credit_warning
        "Daily usage limit reached. Consider upgrading for more credits.").resume_time = none ∧
    (detect_credit_warning
        "Daily usage limit reached. Consider upgrading for more credits.").warning_type =
      "general_limit" ∧
    hasSubstr "daily limit".toList
        (lowerChars "Daily usage limit reached. Consider upgrading for more credits.") = false ∧
    hasSubstr "upgrade".toList
        (lowerChars "Daily usage limit reached. Consider upgrading for more credits.") = false := by
  refine ⟨by decide, by decide, by decide, by decide, by decide, by decide⟩

/-- Claim C2, counterexample: starting from the default state, a session
started at time 0 and evaluated twice at the 5-hour mark reports
`session_limit_exceeded` on the first evaluation and again on the second —
the limit threshold sets no persisted one-shot flag, so repeated
evaluations at or above it do not report the crossing exactly once. -/
theorem session_limit_not_one_shot_counterexample :
    (check_session_thresholds defaultConfig
        (start_session defaultSessionState 0 "unified-session") 18000).1.session_limit_exceeded =
      true ∧
    (check_session_thresholds defaultConfig
        (check_session_thresholds defaultConfig
            (start_session defaultSessionState 0 "unified-session") 18000).2
        18000).1.session_limit_exceeded = true := by
  have hdur : get_session_duration (start_session defaultSessionState 0 "unified-session") 18000 = 5 := by
    simp only [get_session_duration, start_session]
    norm_num
  have h1 := hdur
  constructor
  · simp only [check_session_thresholds]
    split_ifs with h <;> simp_all [defaultConfig, ge_iff_le]
  · simp only [check_session_thresholds]
    split_ifs with h h2 h3 <;> simp_all [defaultConfig, ge_iff_le]

/-- Claim C2, amended: the four flag-guarded thresholds (context warning,
context critical, Code Yellow, Code Orange) are one-shot: with the flag
unset and the signal at or above the threshold (and below the next branch's
firing condition), one evaluation reports the crossing and sets the
persisted flag; with the flag set, every evaluation reports no crossing for
that threshold and leaves the flag set, until an explicit reset.  The
5-hour `session_limit_exceeded` threshold is the exception: it is guarded
by no flag, leaves the state unchanged, and is reported by every evaluation
whose duration is at or above the limit. -/
theorem one_shot_thresholds :
    (∀ (st : ContextState) (text : String), st.critical_triggered = true →
        (check_context_thresholds st text).1.critical_threshold_crossed = false ∧
        (check_context_thresholds st text).2.critical_triggered = true) ∧
    (∀ (st : ContextState) (text : String), st.critical_triggered = false →
        critical_threshold ≤ estimate_context_usage st text →
        (check_context_thresholds st text).1.critical_threshold_crossed = true ∧
        (check_context_thresholds st text).2.critical_triggered = true) ∧
    (∀ (st : ContextState) (text : String), st.warning_triggered = true →
        (check_context_thresholds st text).1.warning_threshold_crossed = false ∧
        (check_context_thresholds st text).2.warning_triggered = true) ∧
    (∀ (st : ContextState) (text : String), st.warning_triggered = false →
        warning_threshold ≤ estimate_context_usage st text →
        estimate_context_usage st text < critical_threshold →
        (check_context_thresholds st text).1.warning_threshold_crossed = true ∧
        (check_context_thresholds st text).2.warning_triggered = true) ∧
    (∀ (cfg : Config) (st : SessionState) (now : ℚ), st.code_orange_triggered = true →
        (check_session_thresholds cfg st now).1.code_orange_crossed = false ∧
        (check_session_thresholds cfg st now).2.code_orange_triggered = true) ∧
    (∀ (cfg : Config) (st : SessionState) (now : ℚ), st.code_orange_triggered = false →
        cfg.code_orange_threshold_hours ≤ get_session_duration st now →
        get_session_duration st now < cfg.session_limit_hours →
        (check_session_thresholds cfg st now).1.code_orange_crossed = true ∧
        (check_session_thresholds cfg st now).2.code_orange_triggered = true) ∧
    (∀ (cfg : Config) (st : SessionState) (now : ℚ), st.code_yellow_triggered = true →
        (check_session_thresholds cfg st now).1.code_yellow_crossed = false ∧
        (check_session_thresholds cfg st now).2.code_yellow_triggered = true) ∧
    (∀ (cfg : Config) (st : SessionState) (now : ℚ), st.code_yellow_triggered = false →
        cfg.code_yellow_threshold_hours ≤ get_session_duration st now →
        get_session_duration st now < cfg.code_orange_threshold_hours →
        get_session_duration st now < cfg.session_limit_hours →
        (check_session_thresholds cfg st now).1.code_yellow_crossed = true ∧
        (check_session_thresholds cfg st now).2.code_yellow_triggered = true) ∧
    (∀ (cfg : Config) (st : SessionState) (now : ℚ),
        cfg.session_limit_hours ≤ get_session_duration st now →
        (check_session_thresholds cfg st now).1.session_limit_exceeded = true ∧
        (check_session_thresholds cfg st now).2 = st) := by
  refine ⟨?_, ?_, ?_, ?_, ?_, ?_, ?_, ?_, ?_⟩
  · intro st text h
    simp only [check_context_thresholds]
    split_ifs with h1 h2 <;> simp_all
  · intro st text h h2
    simp only [check_context_thresholds]
    split_ifs with h1 h2' <;> simp_all [ge_iff_le]
  · intro st text h
    simp only [check_context_thresholds]
    split_ifs with h1 h2 <;> simp_all
  · intro st text h h2 h3
    simp only [check_context_thresholds]
    split_ifs with h1 h2' <;> simp_all [ge_iff_le] <;>
      exact absurd h1.1 (not_le.mpr h3)
  · intro cfg st now h
    simp only [check_session_thresholds]
    split_ifs with h1 h2 h3 <;> simp_all
  · intro cfg st now h h2 h3
    simp only [check_session_thresholds]
    split_ifs with h1 h2' h3' <;> simp_all [ge_iff_le]
    exact absurd h1 (not_le.mpr h3)
  · intro cfg st now h
    simp only [check_session_thresholds]
    split_ifs with h1 h2 h3 <;> simp_all
  · intro cfg st now h h2 h3 h4
    simp only [check_session_thresholds]
    split_ifs with h1 h2' h3' <;> simp_all [ge_iff_le]
    · exact absurd h1 (not_le.mpr h4)
    · exact absurd h2'.1 (not_le.mpr h3)
  · intro cfg st now h
    simp only [check_session_thresholds]
    split_ifs with h1 <;> simp_all [ge_iff_le]

/-- Witness for `one_shot_thresholds`: a first evaluation on the default
context state at `"96% used"` fires the critical crossing and sets its
flag, and an evaluation of a session started at time 0 and checked at the
5-hour mark reports `session_limit_exceeded` with the state unchanged. -/
theorem one_shot_thresholds_witness :
    ((check_context_thresholds defaultContextState "96% used").1.critical_threshold_crossed = true ∧
     (check_context_thresholds defaultContextState "96% used").2.critical_triggered = true) ∧
    ((check_session_thresholds defaultConfig
          (start_session defaultSessionState 0 "unified-session") 18000).1.session_limit_exceeded = true ∧
     (check_session_thresholds defaultConfig
          (start_session defaultSessionState 0 "unified-session") 18000).2 =
        start_session defaultSessionState 0 "unified-session") := by
  constructor
  · refine one_shot_thresholds.2.1 defaultContextState "96% used" rfl ?_
    have h : scanContextIndicators (lowerChars "96% used") = some (.percent 96) := by decide
    simp only [estimate_context_usage, h, hitValue, critical_threshold]
    norm_num
  · refine one_shot_thresholds.2.2.2.2.2.2.2.2 defaultConfig
      (start_session defaultSessionState 0 "unified-session") 18000 ?_
    simp only [get_session_duration, start_session, defaultConfig]
    norm_num

/-- Claim C4: the trigger history is a capacity-10 ring buffer with oldest
entries evicted first: logging any 15 trigger events from the empty default
state leaves exactly the 10 most recent events, in order, and no prefix of
the sequence ever pushes the history length above 10. -/
theorem trigger_history_bounded (xs : List (ℚ × String × TriggerOutcome))
    (h : xs.length = 15) :
    (logTriggerFold defaultCoordinatorState xs).triggers_history =
      (xs.map fun p => mkTriggerEvent p.1 p.2.1 p.2.2).drop 5 ∧
    (logTriggerFold defaultCoordinatorState xs).triggers_history.length = 10 ∧
    ∀ k : Nat,
      (logTriggerFold defaultCoordinatorState (xs.take k)).triggers_history.length ≤ 10 := by
  have hempty : defaultCoordinatorState.triggers_history.length ≤ 10 := by
    simp [defaultCoordinatorState]
  have hist := logTriggerFold_history xs defaultCoordinatorState hempty
  have hmap : (xs.map fun p => mkTriggerEvent p.1 p.2.1 p.2.2).length = 15 := by
    simp [h]
  refine ⟨?_, ?_, ?_⟩
  · rw [hist]
    simp [defaultCoordinatorState, takeLast10, hmap]
  · rw [hist]
    simp [defaultCoordinatorState, takeLast10, hmap]
  · intro k
    exact logTriggerFold_history_length_le _ _ hempty

/-- Witness for `trigger_history_bounded` on 15 identical concrete events:
the final history is the mapped tail of the input (its last 10 entries), of
length 10, and the prefix of length 12 also respects the bound. -/
theorem trigger_history_bounded_witness :
    (logTriggerFold defaultCoordinatorState
        (List.replicate 15 ((0 : ℚ), "credit_warning", TriggerOutcome.skipped "test"))).triggers_history =
      ((List.replicate 15 ((0 : ℚ), "credit_warning", TriggerOutcome.skipped "test")).map
          fun p => mkTriggerEvent p.1 p.2.1 p.2.2).drop 5 ∧
    (logTriggerFold defaultCoordinatorState
        (List.replicate 15 ((0 : ℚ), "credit_warning", TriggerOutcome.skipped "test"))).triggers_history.length = 10 ∧
    (logTriggerFold defaultCoordinatorState
        ((List.replicate 15 ((0 : ℚ), "credit_warning", TriggerOutcome.skipped "test")).take 12)).triggers_history.length ≤ 10 := by
  have h := trigger_history_bounded
    (List.replicate 15 ((0 : ℚ), "credit_warning", TriggerOutcome.skipped "test")) (by simp)
  exact ⟨h.1, h.2.1, h.2.2 12⟩

/-- Claim C9: one context-threshold evaluation reports at most one of the
two crossings, and when the usage is at or above the critical threshold
with both one-shot flags unset, only the critical crossing is reported and
the warning flag is left unset. -/
theorem context_check_single_crossing (st : ContextState) (text : String) :
    (¬((check_context_thresholds st text).1.warning_threshold_crossed = true ∧
       (check_context_thresholds st text).1.critical_threshold_crossed = true)) ∧
    (critical_threshold ≤ estimate_context_usage st text →
      st.critical_triggered = false → st.warning_triggered = false →
      (check_context_thresholds st text).1.critical_threshold_crossed = true ∧
      (check_context_thresholds st text).1.warning_threshold_crossed = false ∧
      (check_context_thresholds st text).2.warning_triggered = false) := by
  constructor
  · simp only [check_context_thresholds]
    split_ifs <;> simp
  · intro h1 h2 h3
    simp only [check_context_thresholds]
    split_ifs with ha hb <;> simp_all [ge_iff_le]

/-- Witness for `context_check_single_crossing` at the default state and
the text `"96% used"`. -/
theorem context_check_single_crossing_witness :
    (check_context_thresholds defaultContextState "96% used").1.critical_threshold_crossed = true ∧
    (check_context_thresholds defaultContextState "96% used").1.warning_threshold_crossed = false ∧
    (check_context_thresholds defaultContextState "96% used").2.warning_triggered = false := by
  refine (context_check_single_crossing defaultContextState "96% used").2 ?_ rfl rfl
  have h : scanContextIndicators (lowerChars "96% used") = some (.percent 96) := by decide
  simp only [estimate_context_usage, h, hitValue, critical_threshold]
  norm_num

/-- Claim C10: with no session started, `get_session_duration` is exactly 0
and, for any positive configured thresholds, a threshold evaluation reports
none of the three duration crossings. -/
theorem no_session_no_crossing (cfg : Config) (st : SessionState) (now : ℚ)
    (hstart : st.session_start = none)
    (hy : 0 < cfg.code_yellow_threshold_hours)
    (ho : 0 < cfg.code_orange_threshold_hours)
    (hl : 0 < cfg.session_limit_hours) :
    get_session_duration st now = 0 ∧
    (check_session_thresholds cfg st now).1.code_yellow_crossed = false ∧
    (check_session_thresholds cfg st now).1.code_orange_crossed = false ∧
    (check_session_thresholds cfg st now).1.session_limit_exceeded = false := by
  have hdur : get_session_duration st now = 0 := by
    simp [get_session_duration, hstart]
  refine ⟨hdur, ?_⟩
  simp only [check_session_thresholds, hdur]
  split_ifs with h1 h2 h3 <;> simp_all [ge_iff_le] <;> linarith

/-- Witness for `no_session_no_crossing` at the default configuration and
default (never-started) session state, checked at time 42. -/
theorem no_session_no_crossing_witness :
    get_session_duration defaultSessionState 42 = 0 ∧
    (check_session_thresholds defaultConfig defaultSessionState 42).1.code_yellow_crossed = false ∧
    (check_session_thresholds defaultConfig defaultSessionState 42).1.code_orange_crossed = false ∧
    (check_session_thresholds defaultConfig defaultSessionState 42).1.session_limit_exceeded = false :=
  no_session_no_crossing defaultConfig defaultSessionState 42 rfl (by norm_num [defaultConfig])
    (by norm_num [defaultConfig]) (by norm_num [defaultConfig])

/-- Claim C5: in an activity update with both a signal message and
conversation text present, the credit classifier is evaluated first: if it
detects a warning and its prompt resolves to a result, that result is
returned immediately and the context monitor's state is untouched (the
usage estimator, which always mutates the context record when run, is not
evaluated); only when the classifier does not detect a warning is the
conversation text run through the context monitor. -/
theorem update_activity_classifier_first (cfg : Config) (gen : Option Generator)
    (m : Monitors) (now : ℚ) (conversation_text claude_message : String)
    (responses : List String) (warningResponse : String)
    (hcm : claude_message ≠ "") (hct : conversation_text ≠ "") :
    ((detect_credit_warning claude_message).credit_warning_detected = true →
      ∀ o : TriggerOutcome,
        trigger_backup_prompt cfg.credit_auto_trigger gen
            (detect_credit_warning claude_message) responses = .outcome o →
        update_activity cfg gen m now conversation_text claude_message responses warningResponse =
          (.triggered o,
           { session := session_update_activity m.session now
             ctx := m.ctx
             coord := log_trigger m.coord now "credit_warning" o })) ∧
    ((detect_credit_warning claude_message).credit_warning_detected = false →
      update_activity cfg gen m now conversation_text claude_message responses warningResponse =
        ((match (monitor_conversation cfg.context_monitoring gen m.ctx conversation_text warningResponse).1 with
          | some o => ActivityResult.triggered o
          | none => ActivityResult.noTrigger),
         { session := session_update_activity m.session now
           ctx := (monitor_conversation cfg.context_monitoring gen m.ctx conversation_text warningResponse).2
           coord :=
             match (monitor_conversation cfg.context_monitoring gen m.ctx conversation_text warningResponse).1 with
             | some o => log_trigger m.coord now "context_window" o
             | none => m.coord })) := by
  constructor
  · intro hdet o hprompt
    simp only [update_activity, monitor_session, hdet, hprompt, if_true, if_pos hcm, ne_eq]
  · intro hdet
    simp only [update_activity, monitor_session, hdet, if_pos hcm, if_pos hct,
      Bool.false_eq_true, if_false, ne_eq]
    cases hmc : (monitor_conversation cfg.context_monitoring gen m.ctx conversation_text
      warningResponse).1 <;> simp

/-- Witness for `update_activity_classifier_first`: the message
`"Credits running low"` is detected; with the factory unavailable the
prompt resolves to the factory error, which the coordinator returns with
the context state untouched. -/
theorem update_activity_classifier_first_witness :
    (detect_credit_warning "Credits running low").credit_warning_detected = true ∧
    update_activity defaultConfig none defaultMonitors 0 "hi" "Credits running low" [] "n" =
      (.triggered (.err "Enhanced package generator not available"),
       { session := session_update_activity defaultMonitors.session 0
         ctx := defaultMonitors.ctx
         coord := log_trigger defaultMonitors.coord 0 "credit_warning"
           (.err "Enhanced package generator not available") }) := by
  refine ⟨by decide, ?_⟩
  exact (update_activity_classifier_first defaultConfig none defaultMonitors 0 "hi"
      "Credits running low" [] "n" (by decide) (by decide)).1 (by decide)
      (.err "Enhanced package generator not available") (by decide)

/-- Claim C6, counterexample: `start_unified_monitoring` re-initializes
`total_triggers_fired` to 0, lowering a persisted value of 3 — so the
counter is not non-decreasing across every operation other than reset. -/
theorem total_triggers_start_counterexample :
    (start_unified_monitoring defaultConfig
          { session := defaultSessionState
            ctx := defaultContextState
            coord := { coordinator_started := none
                       session_id := none
                       total_triggers_fired := 3
                       triggers_history := []
                       last_coordination_check := none } } 0 "unified-x").coord.total_triggers_fired <
      ({ coordinator_started := none
         session_id := none
         total_triggers_fired := 3
         triggers_history := []
         last_coordination_check := none } : CoordinatorState).total_triggers_fired := by
  simp [start_unified_monitoring, defaultConfig, start_session]

/-- Claim C6, amended: `total_triggers_fired` is non-decreasing across
activity updates, trigger logging (which increments it by exactly one), the
background coordination-loop iteration and the stop operation; the
exceptions are the explicit reset and `start_unified_monitoring`, which
re-initializes the counter to 0 for the new session. -/
theorem total_triggers_monotone :
    (∀ (cfg : Config) (gen : Option Generator) (m : Monitors) (now : ℚ)
        (ct cm : String) (resp : List String) (wr : String),
        m.coord.total_triggers_fired ≤
          (update_activity cfg gen m now ct cm resp wr).2.coord.total_triggers_fired) ∧
    (∀ (cs : CoordinatorState) (now : ℚ) (t : String) (r : TriggerOutcome),
        (log_trigger cs now t r).total_triggers_fired = cs.total_triggers_fired + 1) ∧
    (∀ (cfg : Config) (gen : Option Generator) (m : Monitors) (now : ℚ),
        m.coord.total_triggers_fired ≤
          (coordination_loop_iter cfg gen m now).coord.total_triggers_fired) ∧
    (∀ m : Monitors,
        (stop_unified_monitoring m).coord.total_triggers_fired = m.coord.total_triggers_fired) ∧
    (∀ (cfg : Config) (m : Monitors) (now : ℚ) (sid : String),
        (start_unified_monitoring cfg m now sid).coord.total_triggers_fired = 0) := by
  refine ⟨?_, ?_, ?_, ?_, ?_⟩
  · intro cfg gen m now ct cm resp wr
    simp only [update_activity]
    by_cases hcm : cm ≠ ""
    · rw [if_pos hcm]
      cases hms : monitor_session cfg.credit_auto_trigger gen cm resp with
      | none =>
        simp only
        by_cases hct : ct ≠ ""
        · rw [if_pos hct]
          cases hmc : (monitor_conversation cfg.context_monitoring gen m.ctx ct wr).1 <;>
            simp [log_trigger]
        · rw [if_neg hct]
      | some cc =>
        cases cc <;> simp [log_trigger]
    · rw [if_neg hcm]
      by_cases hct : ct ≠ ""
      · rw [if_pos hct]
        cases hmc : (monitor_conversation cfg.context_monitoring gen m.ctx ct wr).1 <;>
          simp [log_trigger]
      · rw [if_neg hct]
  · intro cs now t r
    simp [log_trigger]
  · intro cfg gen m now
    simp only [coordination_loop_iter]
    split_ifs <;> simp [log_trigger]
  · intro m
    rfl
  · intro cfg m now sid
    simp [start_unified_monitoring]

/-- Claim C7: after `reset_all_monitoring`, every one-shot flag is false,
every counter is 0 and the trigger history is empty; and a subsequent
evaluation with the signal at or above a threshold fires that threshold's
trigger again — the context critical trigger for usage back above the
critical threshold, and (once a new session is started) the Code Yellow
trigger for a duration back in the yellow band. -/
theorem reset_restores_defaults_and_refires :
    (∀ m : Monitors,
        (reset_all_monitoring m).ctx.warning_triggered = false ∧
        (reset_all_monitoring m).ctx.critical_triggered = false ∧
        (reset_all_monitoring m).session.code_yellow_triggered = false ∧
        (reset_all_monitoring m).session.code_orange_triggered = false ∧
        (reset_all_monitoring m).ctx.conversation_exchanges_since_base = 0 ∧
        (reset_all_monitoring m).ctx.estimated_context_usage = 0 ∧
        (reset_all_monitoring m).session.total_exchanges = 0 ∧
        (reset_all_monitoring m).session.emergency_backups_created = 0 ∧
        (reset_all_monitoring m).coord.total_triggers_fired = 0 ∧
        (reset_all_monitoring m).coord.triggers_history = []) ∧
    (∀ (m : Monitors) (text : String),
        critical_threshold ≤ estimate_context_usage (reset_all_monitoring m).ctx text →
        (check_context_thresholds
            (reset_all_monitoring m).ctx text).1.critical_threshold_crossed = true) ∧
    (∀ (m : Monitors) (cfg : Config) (t0 now : ℚ) (sid : String),
        cfg.code_yellow_threshold_hours ≤ (now - t0) / 3600 →
        (now - t0) / 3600 < cfg.code_orange_threshold_hours →
        (now - t0) / 3600 < cfg.session_limit_hours →
        (check_session_thresholds cfg
            (start_session (reset_all_monitoring m).session t0 sid) now).1.code_yellow_crossed =
          true) := by
  refine ⟨?_, ?_, ?_⟩
  · intro m
    simp [reset_all_monitoring, stop_unified_monitoring, reset_session, reset_monitoring,
      defaultSessionState, defaultContextState, defaultCoordinatorState]
  · intro m text h
    simp only [check_context_thresholds, reset_all_monitoring, stop_unified_monitoring,
      reset_monitoring, defaultContextState] at *
    split_ifs with h1 h2 <;> simp_all [ge_iff_le]
  · intro m cfg t0 now sid h1 h2 h3
    have hdur : get_session_duration (start_session (reset_all_monitoring m).session t0 sid) now =
        (now - t0) / 3600 := by
      simp [get_session_duration, start_session]
    simp only [check_session_thresholds, hdur]
    split_ifs with ha hb hc
    · exact absurd ha (not_le.mpr h3)
    · exact absurd hb.1 (not_le.mpr h2)
    · rfl
    · exact absurd ⟨h1, rfl⟩ hc

/-- Witness for `reset_restores_defaults_and_refires`: resetting a fully
tripped monitor set clears every flag and counter; afterwards
`"96% used"` fires the critical trigger again, and a session restarted at
time 0 and checked at 4.6 hours fires Code Yellow again. -/
theorem reset_restores_defaults_and_refires_witness :
    ((reset_all_monitoring
        { session := { session_start := some 0, last_activity := some 0,
                       code_yellow_triggered := true, code_orange_triggered := true,
                       session_id := some "s", total_exchanges := 7,
                       emergency_backups_created := 2 }
          ctx := { warning_triggered := true, base_context_created := true,
                   base_context_snapshot := some "snap", critical_triggered := true,
                   estimated_context_usage := 1, conversation_exchanges_since_base := 9 }
          coord := { coordinator_started := some 0, session_id := some "s",
                     total_triggers_fired := 4, triggers_history := [],
                     last_coordination_check := some 0 } }).ctx.critical_triggered = false) ∧
    (check_context_thresholds
        (reset_all_monitoring
          { session := { session_start := some 0, last_activity := some 0,
                         code_yellow_triggered := true, code_orange_triggered := true,
                         session_id := some "s", total_exchanges := 7,
                         emergency_backups_created := 2 }
            ctx := { warning_triggered := true, base_context_created := true,
                     base_context_snapshot := some "snap", critical_triggered := true,
                     estimated_context_usage := 1, conversation_exchanges_since_base := 9 }
            coord := { coordinator_started := some 0, session_id := some "s",
                       total_triggers_fired := 4, triggers_history := [],
                       last_coordination_check := some 0 } }).ctx
        "96% used").1.critical_threshold_crossed = true ∧
    (check_session_thresholds defaultConfig
        (start_session
          (reset_all_monitoring
            { session := { session_start := some 0, last_activity := some 0,
                           code_yellow_triggered := true, code_orange_triggered := true,
                           session_id := some "s", total_exchanges := 7,
                           emergency_backups_created := 2 }
              ctx := { warning_triggered := true, base_context_created := true,
                       base_context_snapshot := some "snap", critical_triggered := true,
                       estimated_context_usage := 1, conversation_exchanges_since_base := 9 }
              coord := { coordinator_started := some 0, session_id := some "s",
                         total_triggers_fired := 4, triggers_history := [],
                         last_coordination_check := some 0 } }).session
          0 "fresh") 16560).1.code_yellow_crossed = true := by
  refine ⟨(reset_restores_defaults_and_refires.1 _).2.1, ?_, ?_⟩
  · refine reset_restores_defaults_and_refires.2.1 _ "96% used" ?_
    have h : scanContextIndicators (lowerChars "96% used") = some (.percent 96) := by decide
    simp only [estimate_context_usage, h, hitValue, critical_threshold, reset_all_monitoring,
      stop_unified_monitoring, reset_monitoring]
    norm_num
  · refine reset_restores_defaults_and_refires.2.2 _ defaultConfig 0 16560 "fresh" ?_ ?_ ?_ <;>
      norm_num [defaultConfig]

/-- Claim C8: with the package factory absent (the generator import
failed), every trigger-handling operation — the context warning and
critical handlers, the credit backup prompt (when `credit_auto_trigger` is
enabled, its default), and the Code Yellow trigger — returns the
factory-unavailable error record, leaving the monitor state unchanged,
instead of raising or failing construction. -/
theorem factory_unavailable_reports_error :
    (∀ (st : ContextState) (response : String),
        handle_warning_trigger none st response =
          (.err "Enhanced package generator not available", st)) ∧
    (∀ st : ContextState,
        handle_critical_trigger none st =
          (.err "Enhanced package generator not available", st)) ∧
    (∀ (credit_auto_trigger : Bool) (info : CreditWarningInfo) (responses : List String),
        credit_auto_trigger = true →
        trigger_backup_prompt credit_auto_trigger none info responses =
          .outcome (.err "Enhanced package generator not available")) ∧
    (∀ st : SessionState,
        trigger_code_yellow none st =
          (.err "Enhanced package generator not available", st)) := by
  refine ⟨fun st response => rfl, fun st => rfl, ?_, fun st => rfl⟩
  intro credit_auto_trigger info responses h
  subst h
  rfl

/-- Witness for `factory_unavailable_reports_error`: with the default
(enabled) auto-trigger setting and a detected warning, the credit backup
prompt reports the factory-unavailable error. -/
theorem factory_unavailable_reports_error_witness :
    trigger_backup_prompt true none (detect_credit_warning "Credits running low") [] =
      .outcome (.err "Enhanced package generator not available") :=
  factory_unavailable_reports_error.2.2.1 true
    (detect_credit_warning "Credits running low") [] rfl
